import Mathlib

/-!
Verification of the middleware module (`src/middleware.js`) of the
mad-spring-connect repository: `checkStatus`, `parseJSON` and the
`ErrorWithResponse` failure type, composed over promises of fetch
`Response` objects.

We shallow-embed a settled promise as `Except JSError α`: a promise that
has resolved carries `.ok`, a promise that has rejected carries
`.error`.  `Promise.thenResolved p f` models the JavaScript call
`p.then(f)`: the fulfilment handler `f` runs only when `p` resolved, and
a rejection of `p` propagates unchanged; a handler returning
`Promise.reject e` yields a rejected promise (`Except.bind` semantics).

A fetch `Response` is embedded with the three members the module reads:
`status`, `statusText`, and the deferred body accessor `json()`.  The
status field is `Option Int`: `some n` is a numeric status code, `none`
stands for a missing or non-numeric `status` member, for which every
JavaScript comparison (`undefined >= 200`, `undefined <= 299`) is
false.  The accessor `json` is embedded by its settled outcome: either a
parsed structured value or the parser's native syntax error (a string).
-/

/-- A parsed JSON document: the structured values `response.json()` can
resolve to. -/
inductive Json where
  | null : Json
  | bool (b : Bool) : Json
  | num (n : Int) : Json
  | str (s : String) : Json
  | arr (elems : List Json) : Json
  | obj (fields : List (String × Json)) : Json
  deriving Repr

/-- The embedded fetch `Response`: numeric status code (`none` models a
missing or non-numeric `status` member), status text, and the settled
outcome of the deferred `json()` body accessor (`Except.error m` is the
parser's native syntax error with message `m`). -/
structure Response where
  status : Option Int
  statusText : String
  json : Except String Json

/-- `ErrorWithResponse` from `src/middleware.js`: an error wrapping the
`Response` it arose from.  The constructor calls `super(response.statusText)`,
so `message` is the response's status text, and stores the response in
`this.response`; it performs no validation of the status code. -/
structure ErrorWithResponse where
  message : String
  response : Response

/-- The JavaScript constructor `new ErrorWithResponse(response)`. -/
def ErrorWithResponse.ofResponse (response : Response) : ErrorWithResponse :=
  { message := response.statusText, response := response }

/-- An error carried by a rejected promise in this pipeline: either an
`ErrorWithResponse` raised by `checkStatus`, or a native error (transport
failure or the JSON parser's own syntax error), identified by message. -/
inductive JSError where
  | withResponse (e : ErrorWithResponse) : JSError
  | native (message : String) : JSError

/-- A settled promise: resolved with a value or rejected with an error. -/
abbrev Promise (α : Type) := Except JSError α

/-- `p.then(onFulfilled)`: run the fulfilment handler on a resolved
promise, propagate a rejection unchanged; the handler may itself return
a rejected promise. -/
def Promise.thenResolved (p : Promise α) (onFulfilled : α → Promise β) : Promise β :=
  match p with
  | .ok a => onFulfilled a
  | .error e => .error e

/-- The JavaScript comparison `status >= 200` where `status` may be a
missing or non-numeric member: any comparison against a non-number is
false. -/
def jsGE (status : Option Int) (bound : Int) : Bool :=
  match status with
  | some n => bound ≤ n
  | none => false

/-- The JavaScript comparison `status <= 299` where `status` may be a
missing or non-numeric member. -/
def jsLE (status : Option Int) (bound : Int) : Bool :=
  match status with
  | some n => n ≤ bound
  | none => false

/-- `checkStatus` from `src/middleware.js`: on resolution, return the
response unchanged when `status >= 200 && status <= 299`, otherwise
reject with `new ErrorWithResponse(response)`. -/
def checkStatus (promise : Promise Response) : Promise Response :=
  promise.thenResolved fun response =>
    let status := response.status
    if jsGE status 200 && jsLE status 299 then
      .ok response
    else
      .error (.withResponse (ErrorWithResponse.ofResponse response))

/-- `parseJSON` from `src/middleware.js`: on resolution, return
`response.json()`, adopting the accessor's outcome; the accessor's
failure is the parser's native error. -/
def parseJSON (promise : Promise Response) : Promise Json :=
  promise.thenResolved fun response =>
    match response.json with
    | .ok v => .ok v
    | .error m => .error (.native m)

/-! ## Helper lemmas shared by the claim theorems -/

theorem checkStatus_ok_of_2xx (r : Response) (c : Int) (hs : r.status = some c)
    (h1 : 200 ≤ c) (h2 : c ≤ 299) : checkStatus (.ok r) = .ok r := by
  have hcond : (jsGE r.status 200 && jsLE r.status 299) = true := by
    simp [jsGE, jsLE, hs]; omega
  simp [checkStatus, Promise.thenResolved, hcond]

theorem checkStatus_reject_of_non2xx (r : Response) (c : Int) (hs : r.status = some c)
    (hc : c < 200 ∨ 299 < c) :
    checkStatus (.ok r) =
      .error (.withResponse { message := r.statusText, response := r }) := by
  have hcond : (jsGE r.status 200 && jsLE r.status 299) = false := by
    simp [jsGE, jsLE, hs]; omega
  simp [checkStatus, Promise.thenResolved, hcond, ErrorWithResponse.ofResponse]

theorem checkStatus_reject_of_not_cond (r : Response)
    (hcond : (jsGE r.status 200 && jsLE r.status 299) = false) :
    checkStatus (.ok r) =
      .error (.withResponse (ErrorWithResponse.ofResponse r)) := by
  simp [checkStatus, Promise.thenResolved, hcond]

theorem parseJSON_ok_of_json_ok (r : Response) (v : Json) (hj : r.json = .ok v) :
    parseJSON (.ok r) = .ok v := by
  simp [parseJSON, Promise.thenResolved, hj]

theorem parseJSON_error_of_json_error (r : Response) (m : String)
    (hj : r.json = .error m) : parseJSON (.ok r) = .error (.native m) := by
  simp [parseJSON, Promise.thenResolved, hj]

/-! ## Claim theorems -/

/-- C1: for every Exchange Result with status code `c`, `c < 200` or
`c > 299`, resolved by the input promise, `checkStatus` rejects with an
`ErrorWithResponse` whose `response` field is that exact Exchange Result
and whose `message` equals the Exchange Result's `statusText`. -/
theorem checkStatus_gate_invariant (r : Response) (c : Int)
    (hs : r.status = some c) (hc : c < 200 ∨ 299 < c) :
    checkStatus (.ok r) =
      .error (.withResponse { message := r.statusText, response := r }) :=
  checkStatus_reject_of_non2xx r c hs hc

/-- Witness for C1 at a concrete 404 response. -/
theorem checkStatus_gate_invariant_witness :
    checkStatus (.ok ⟨some 404, "Not Found", .ok .null⟩) =
      .error (.withResponse
        { message := "Not Found", response := ⟨some 404, "Not Found", .ok .null⟩ }) :=
  checkStatus_gate_invariant ⟨some 404, "Not Found", .ok .null⟩ 404 rfl
    (Or.inr (by decide))

/-- C2: for every Exchange Result with status code `c`,
`200 ≤ c ≤ 299`, resolved by the input promise, `checkStatus` resolves
to the exact same Exchange Result, unchanged. -/
theorem checkStatus_pass_through (r : Response) (c : Int)
    (hs : r.status = some c) (h1 : 200 ≤ c) (h2 : c ≤ 299) :
    checkStatus (.ok r) = .ok r :=
  checkStatus_ok_of_2xx r c hs h1 h2

/-- Witness for C2 at a concrete 204 response. -/
theorem checkStatus_pass_through_witness :
    checkStatus (.ok ⟨some 204, "No Content", .ok .null⟩) =
      .ok ⟨some 204, "No Content", .ok .null⟩ :=
  checkStatus_pass_through ⟨some 204, "No Content", .ok .null⟩ 204 rfl
    (by decide) (by decide)

/-- C3: boundary values of the range check: status 199 rejects,
status 200 resolves, status 299 resolves, status 300 rejects — both
bounds of [200, 299] are inclusive. -/
theorem checkStatus_boundary_values (r : Response) :
    (r.status = some 199 → checkStatus (.ok r) =
        .error (.withResponse { message := r.statusText, response := r })) ∧
    (r.status = some 200 → checkStatus (.ok r) = .ok r) ∧
    (r.status = some 299 → checkStatus (.ok r) = .ok r) ∧
    (r.status = some 300 → checkStatus (.ok r) =
        .error (.withResponse { message := r.statusText, response := r })) :=
  ⟨fun hs => checkStatus_reject_of_non2xx r 199 hs (Or.inl (by omega)),
   fun hs => checkStatus_ok_of_2xx r 200 hs (by omega) (by omega),
   fun hs => checkStatus_ok_of_2xx r 299 hs (by omega) (by omega),
   fun hs => checkStatus_reject_of_non2xx r 300 hs (Or.inr (by omega))⟩

/-- Witness for C3: the 199 boundary at a concrete response. -/
theorem checkStatus_boundary_values_witness :
    checkStatus (.ok ⟨some 199, "Early Hints", .ok .null⟩) =
      .error (.withResponse
        { message := "Early Hints", response := ⟨some 199, "Early Hints", .ok .null⟩ }) :=
  (checkStatus_boundary_values ⟨some 199, "Early Hints", .ok .null⟩).1 rfl

/-- C4: an input promise already rejected with error `e` passes through
both `checkStatus` and `parseJSON` unmodified: both return a promise
rejected with that same `e`. -/
theorem transport_failure_transparency (e : JSError) :
    checkStatus (.error e) = .error e ∧ parseJSON (.error e) = .error e :=
  ⟨rfl, rfl⟩

/-- C5: when the Exchange Result's body-parsing accessor resolves to a
structured value `v`, `parseJSON` resolves to exactly `v`. -/
theorem parseJSON_delegation (r : Response) (v : Json) (hj : r.json = .ok v) :
    parseJSON (.ok r) = .ok v :=
  parseJSON_ok_of_json_ok r v hj

/-- Witness for C5 at a concrete response whose body parses to the
mapping containing the single pair a to 1. -/
theorem parseJSON_delegation_witness :
    parseJSON (.ok ⟨some 200, "OK", .ok (.obj [("a", .num 1)])⟩) =
      .ok (.obj [("a", .num 1)]) :=
  parseJSON_delegation ⟨some 200, "OK", .ok (.obj [("a", .num 1)])⟩
    (.obj [("a", .num 1)]) rfl

/-- C6: when the Exchange Result's body-parsing accessor fails with the
parser's native error, `parseJSON` rejects with exactly that native
error, unwrapped. -/
theorem parseJSON_failure_propagation (r : Response) (m : String)
    (hj : r.json = .error m) : parseJSON (.ok r) = .error (.native m) :=
  parseJSON_error_of_json_error r m hj

/-- Witness for C6 at a concrete response with a malformed body. -/
theorem parseJSON_failure_propagation_witness :
    parseJSON (.ok ⟨some 200, "OK", .error "Unexpected token n in JSON"⟩) =
      .error (.native "Unexpected token n in JSON") :=
  parseJSON_failure_propagation ⟨some 200, "OK", .error "Unexpected token n in JSON"⟩
    "Unexpected token n in JSON" rfl

/-- C7: composing `parseJSON (checkStatus p)` where `p` resolves to an
Exchange Result with status 404 rejects with an `ErrorWithResponse`.
The body-parsing accessor is never invoked: the second conjunct shows
that the chain's outcome is the same `ErrorWithResponse` rejection for
every possible outcome `b` of the accessor. -/
theorem composition_404_rejects (r : Response) (hs : r.status = some 404) :
    parseJSON (checkStatus (.ok r)) =
      .error (.withResponse { message := r.statusText, response := r }) ∧
    ∀ b : Except String Json,
      parseJSON (checkStatus (.ok { r with json := b })) =
        .error (.withResponse
          { message := r.statusText, response := { r with json := b } }) := by
  constructor
  · rw [checkStatus_reject_of_non2xx r 404 hs (by omega)]
    rfl
  · intro b
    rw [checkStatus_reject_of_non2xx { r with json := b } 404 hs (by omega)]
    rfl

/-- Witness for C7 at a concrete 404 response with a parseable body. -/
theorem composition_404_rejects_witness :
    parseJSON (checkStatus (.ok ⟨some 404, "Not Found", .ok (.str "irrelevant")⟩)) =
      .error (.withResponse
        { message := "Not Found",
          response := ⟨some 404, "Not Found", .ok (.str "irrelevant")⟩ }) :=
  (composition_404_rejects ⟨some 404, "Not Found", .ok (.str "irrelevant")⟩ rfl).1

/-- C8: the `ErrorWithResponse` constructor itself does not validate the
status (first conjunct: it stores any response verbatim, message taken
from the status text); yet every `ErrorWithResponse` that `checkStatus`
— the library's only construction site — produces from a resolved
Exchange Result wraps a response whose status fails the 2xx range check
(second conjunct). -/
theorem errorWithResponse_invariant :
    (∀ r : Response, (ErrorWithResponse.ofResponse r).response = r ∧
        (ErrorWithResponse.ofResponse r).message = r.statusText) ∧
    ∀ (r : Response) (e : ErrorWithResponse),
      checkStatus (.ok r) = .error (.withResponse e) →
        (jsGE e.response.status 200 && jsLE e.response.status 299) = false := by
  refine ⟨fun r => ⟨rfl, rfl⟩, ?_⟩
  intro r e h
  by_cases hc : (jsGE r.status 200 && jsLE r.status 299) = true
  · rw [show checkStatus (.ok r) = .ok r from by
      simp [checkStatus, Promise.thenResolved, hc]] at h
    exact absurd h (by simp)
  · have hc' : (jsGE r.status 200 && jsLE r.status 299) = false := by
      simpa using hc
    rw [checkStatus_reject_of_not_cond r hc'] at h
    injection h with h1
    injection h1 with h2
    rw [← h2]
    simpa [ErrorWithResponse.ofResponse] using hc'

/-- Witness for C8: a 500 response, with the error `checkStatus`
produces for it. -/
theorem errorWithResponse_invariant_witness :
    (jsGE (some 500) 200 && jsLE (some 500) 299) = false :=
  errorWithResponse_invariant.2 ⟨some 500, "Internal Server Error", .ok .null⟩
    (ErrorWithResponse.ofResponse ⟨some 500, "Internal Server Error", .ok .null⟩)
    (by simp [checkStatus, Promise.thenResolved, jsGE, jsLE])

/-- C9: `parseJSON` never inspects the status code: its result is
unchanged under any replacement of the status (first conjunct); for
every resolved Exchange Result it adopts the body accessor's successful
outcome regardless of status (second conjunct); and any rejection it
produces from a resolved Exchange Result is the parser's native error,
never an `ErrorWithResponse` of its own (third conjunct). -/
theorem parseJSON_ignores_status (r : Response) :
    (∀ s : Option Int, parseJSON (.ok { r with status := s }) = parseJSON (.ok r)) ∧
    (∀ v, r.json = .ok v → parseJSON (.ok r) = .ok v) ∧
    (∀ e, parseJSON (.ok r) = .error e → ∃ m, e = .native m) := by
  refine ⟨fun s => rfl, fun v hj => parseJSON_ok_of_json_ok r v hj, ?_⟩
  intro e h
  cases hj : r.json with
  | ok v =>
      rw [parseJSON_ok_of_json_ok r v hj] at h
      exact absurd h (by simp)
  | error m =>
      rw [parseJSON_error_of_json_error r m hj] at h
      injection h with h1
      exact ⟨m, h1.symm⟩

/-- Witness for C9: a 404 response with a parseable body resolves
successfully through `parseJSON`. -/
theorem parseJSON_ignores_status_witness :
    parseJSON (.ok ⟨some 404, "Not Found", .ok (.obj [("error", .str "gone")])⟩) =
      .ok (.obj [("error", .str "gone")]) :=
  (parseJSON_ignores_status
      ⟨some 404, "Not Found", .ok (.obj [("error", .str "gone")])⟩).2.1
    (.obj [("error", .str "gone")]) rfl

/-- C10: `checkStatus`'s fulfilment handler is exhaustive with failure
as the default: every resolved Exchange Result settles to exactly one of
pass-through or `ErrorWithResponse` rejection (first conjunct); whenever
no status value satisfying the conjunction 200 ≤ c ≤ 299 exists, the
rejection branch is taken (second conjunct); in particular a missing or
non-numeric status field rejects (third conjunct). -/
theorem checkStatus_exhaustive (r : Response) :
    (checkStatus (.ok r) = .ok r ∨
      checkStatus (.ok r) =
        .error (.withResponse (ErrorWithResponse.ofResponse r))) ∧
    (¬ (∃ c, r.status = some c ∧ 200 ≤ c ∧ c ≤ 299) →
      checkStatus (.ok r) =
        .error (.withResponse (ErrorWithResponse.ofResponse r))) ∧
    (r.status = none →
      checkStatus (.ok r) =
        .error (.withResponse (ErrorWithResponse.ofResponse r))) := by
  by_cases hc : (jsGE r.status 200 && jsLE r.status 299) = true
  · have hok : checkStatus (.ok r) = .ok r := by
      simp [checkStatus, Promise.thenResolved, hc]
    refine ⟨Or.inl hok, ?_, ?_⟩
    · intro hno
      exfalso
      apply hno
      cases hs : r.status with
      | none =>
          rw [hs] at hc
          exact absurd hc (by simp [jsGE])
      | some c =>
          rw [hs] at hc
          simp only [jsGE, jsLE, Bool.and_eq_true, decide_eq_true_eq] at hc
          exact ⟨c, rfl, hc.1, hc.2⟩
    · intro hs
      rw [hs] at hc
      exact absurd hc (by simp [jsGE])
  · have hc' : (jsGE r.status 200 && jsLE r.status 299) = false := by
      simpa using hc
    have herr := checkStatus_reject_of_not_cond r hc'
    exact ⟨Or.inr herr, fun _ => herr, fun _ => herr⟩

/-- Witness for C10: a response with a missing status field rejects. -/
theorem checkStatus_exhaustive_witness :
    checkStatus (.ok ⟨none, "No Status", .ok .null⟩) =
      .error (.withResponse
        (ErrorWithResponse.ofResponse ⟨none, "No Status", .ok .null⟩)) :=
  (checkStatus_exhaustive ⟨none, "No Status", .ok .null⟩).2.2 rfl
